import Mathlib

/-!
# Header selection of `include/private/gpu/vk/SkiaVulkan.h`

`SkiaVulkan.h` contains no run-time code: it is a sequence of preprocessor
directives that decides which copy of the Vulkan headers a translation unit
sees.  The development below embeds

* the preprocessor state the directives read and write (the table of
  object-like definitions),
* the directives of the file, line by line, as a value `SkiaVulkan_h`,
* a small interpreter for conditional inclusion (`#ifdef`, `#ifndef`, `#if`,
  `#else`, `#endif`, `#define`, `#include`) with the usual stack of open
  conditional sections,

and proves the selection properties about `preprocess`, the interpreter run
on `SkiaVulkan_h`.

Scope of the model.  An `#include` is recorded in the output list and not
expanded: the text of the four Vulkan headers and of `SkTypes.h` is not part
of this file, so the table of definitions in the statements is the one the
conditional directives of `SkiaVulkan.h` read.  A definition body is either
empty (`#define X`) or an integer literal (`-DX=1`); other replacement lists
are outside the model.  The integers of a `#if` expression are 64 bits wide:
the value of an identifier is its literal modulo `2 ^ 64`, and "true" is "that
value is not `0`".
-/

namespace SkiaVulkan

/-! ## Preprocessor state -/

/-- Replacement list of an object-like definition: empty, as in `#define X`,
or an integer literal, as in `#define X 1` or `-DX=0`.  The literal is kept as
written, of any size; a negative `v` stands for a literal under a unary minus. -/
inductive Body where
  | empty
  | int (v : Int)
  deriving DecidableEq, Repr

/-- Table of definitions: `none` for a name that is not defined. -/
abbrev Env := String → Option Body

/-- The test `defined(n)`. -/
def isDefined (env : Env) (n : String) : Bool :=
  (env n).isSome

/-- Effect of `#define n b` on the table. -/
def define (env : Env) (n : String) (b : Body) : Env :=
  fun m => if m = n then some b else env m

/-- Width of the integers of a `#if` expression: 64 bits. -/
def ppBits : Nat := 64

/-- Value of the identifier `n` inside a `#if` expression, as the 64-bit
pattern the preprocessor computes with: an identifier that is not defined is
replaced by `0`; one defined as an integer literal is replaced by the literal,
of which only the low 64 bits are kept (a literal `k * 2 ^ 64` is read as `0`,
with a warning); one defined with an empty body leaves an operator without
operand, which is an error (`none`). -/
def identValue (env : Env) (n : String) : Option Int :=
  match env n with
  | none => some 0
  | some (Body.int v) => some (v % 2 ^ ppBits)
  | some Body.empty => none

/-! ## Controlling expressions of `#if` -/

/-- Expressions of the shape used in the controlling expressions of the file. -/
inductive PPExpr where
  | ident (n : String)
  | defined (n : String)
  | not (e : PPExpr)
  | and (a b : PPExpr)
  | or (a b : PPExpr)
  deriving Repr

/-- Evaluation of a controlling expression, `none` when the expression is
ill-formed after replacement.  The logical operators yield `0` or `1`. -/
def PPExpr.eval (env : Env) : PPExpr → Option Int
  | PPExpr.ident n => identValue env n
  | PPExpr.defined n => some (if isDefined env n then 1 else 0)
  | PPExpr.not e =>
    match e.eval env with
    | some v => some (if v = 0 then 1 else 0)
    | none => none
  | PPExpr.and a b =>
    match a.eval env, b.eval env with
    | some x, some y => some (if x ≠ 0 ∧ y ≠ 0 then 1 else 0)
    | _, _ => none
  | PPExpr.or a b =>
    match a.eval env, b.eval env with
    | some x, some y => some (if x ≠ 0 ∨ y ≠ 0 then 1 else 0)
    | _, _ => none

/-! ## Directives -/

/-- Operand of `#include`: `"path"` or `<path>`. -/
inductive Header where
  | quoted (path : String)
  | angled (path : String)
  deriving DecidableEq, Repr

/-- The directives that occur in the file. -/
inductive Directive where
  | ifndef (n : String)
  | ifdef (n : String)
  | if_ (e : PPExpr)
  | else_
  | endif
  | define (n : String) (b : Body)
  | include_ (h : Header)
  deriving Repr

/-- An open conditional section.  `outer`: the group that contains the section
is being processed; `taking`: the current group of the section is the selected
one; `inElse`: the `#else` of the section has been read. -/
structure Frame where
  outer : Bool
  taking : Bool
  inElse : Bool
  deriving DecidableEq, Repr

/-- State of one pass: the table, the headers included so far (in order), and
the open conditional sections, innermost first. -/
structure State where
  env : Env
  out : List Header
  stack : List Frame

/-- Whether the text at the current position is processed or skipped. -/
def State.live (s : State) : Bool :=
  match s.stack with
  | [] => true
  | f :: _ => f.outer && f.taking

/-- Opens a conditional section whose first group is selected iff `c`. -/
def openIf (s : State) (c : Bool) : State :=
  { s with stack := { outer := s.live, taking := c, inElse := false } :: s.stack }

/-- One directive.  In a skipped group only the nesting is tracked: conditions
are not evaluated, `#define` and `#include` have no effect.  `none` is a
preprocessing error. -/
def step (s : State) : Directive → Option State
  | Directive.ifndef n => some (openIf s (!isDefined s.env n))
  | Directive.ifdef n => some (openIf s (isDefined s.env n))
  | Directive.if_ e =>
    if s.live then
      match e.eval s.env with
      | some v => some (openIf s (v != 0))
      | none => none
    else some (openIf s false)
  | Directive.else_ =>
    match s.stack with
    | [] => none
    | f :: rest =>
      if f.inElse then none
      else some { s with stack := { outer := f.outer, taking := !f.taking, inElse := true } :: rest }
  | Directive.endif =>
    match s.stack with
    | [] => none
    | _ :: rest => some { s with stack := rest }
  | Directive.define n b =>
    some (if s.live then { s with env := define s.env n b } else s)
  | Directive.include_ h =>
    some (if s.live then { s with out := s.out ++ [h] } else s)

/-- Runs the directives in order. -/
def run : List Directive → State → Option State
  | [], s => some s
  | d :: ds, s =>
    match step s d with
    | some s1 => run ds s1
    | none => none

/-! ## The file -/

/-- Name of the include guard (lines 8, 9). -/
abbrev SkiaVulkan_DEFINED : String := "SkiaVulkan_DEFINED"
/-- Build-context flag, tested by value. -/
abbrev SKIA_IMPLEMENTATION : String := "SKIA_IMPLEMENTATION"
/-- Vulkan backend flag, tested by definedness. -/
abbrev SK_VULKAN : String := "SK_VULKAN"
/-- Override flag, tested by definedness. -/
abbrev SK_USE_EXTERNAL_VULKAN_HEADERS : String := "SK_USE_EXTERNAL_VULKAN_HEADERS"
/-- Platform flag, tested by definedness. -/
abbrev SK_BUILD_FOR_ANDROID : String := "SK_BUILD_FOR_ANDROID"

/-- Line 11. -/
def skTypes : Header := Header.quoted "include/core/SkTypes.h"
/-- Line 16: the bundled core header. -/
def internalCore : Header := Header.quoted "include/third_party/vulkan/vulkan/vulkan_core.h"
/-- Line 20: the core header of the surrounding build. -/
def externalCore : Header := Header.angled "vulkan/vulkan_core.h"
/-- Line 26: the bundled Android extension header. -/
def internalAndroid : Header := Header.quoted "include/third_party/vulkan/vulkan/vulkan_android.h"
/-- Line 30: the Android extension header of the surrounding build. -/
def externalAndroid : Header := Header.angled "vulkan/vulkan_android.h"

/-- Line 15:
`(SKIA_IMPLEMENTATION || !defined(SK_VULKAN)) && !defined(SK_USE_EXTERNAL_VULKAN_HEADERS)`. -/
def coreCond : PPExpr :=
  PPExpr.and
    (PPExpr.or (PPExpr.ident SKIA_IMPLEMENTATION) (PPExpr.not (PPExpr.defined SK_VULKAN)))
    (PPExpr.not (PPExpr.defined SK_USE_EXTERNAL_VULKAN_HEADERS))

/-- Line 25, the same text written a second time:
`(SKIA_IMPLEMENTATION || !defined(SK_VULKAN)) && !defined(SK_USE_EXTERNAL_VULKAN_HEADERS)`. -/
def androidCond : PPExpr :=
  PPExpr.and
    (PPExpr.or (PPExpr.ident SKIA_IMPLEMENTATION) (PPExpr.not (PPExpr.defined SK_VULKAN)))
    (PPExpr.not (PPExpr.defined SK_USE_EXTERNAL_VULKAN_HEADERS))

/-- The directives of `SkiaVulkan.h`, in file order. -/
def SkiaVulkan_h : List Directive :=
  [ Directive.ifndef SkiaVulkan_DEFINED,          -- line 8
    Directive.define SkiaVulkan_DEFINED Body.empty, -- line 9
    Directive.include_ skTypes,                   -- line 11
    Directive.if_ coreCond,                       -- line 15
    Directive.include_ internalCore,              -- line 16
    Directive.else_,                              -- line 17
    Directive.include_ externalCore,              -- line 20
    Directive.endif,                              -- line 21
    Directive.ifdef SK_BUILD_FOR_ANDROID,         -- line 23
    Directive.if_ androidCond,                    -- line 25
    Directive.include_ internalAndroid,           -- line 26
    Directive.else_,                              -- line 27
    Directive.include_ externalAndroid,           -- line 30
    Directive.endif,                              -- line 31
    Directive.endif,                              -- line 32
    Directive.endif ]                             -- line 36

/-- Result of a pass: the headers included, in order, and the table after it. -/
structure Output where
  headers : List Header
  env : Env

/-- One pass over `SkiaVulkan.h` starting from the table `env`.  `none` when
a directive fails or a conditional section is left open. -/
def preprocess (env : Env) : Option Output :=
  match run SkiaVulkan_h { env := env, out := [], stack := [] } with
  | some s =>
    match s.stack with
    | [] => some { headers := s.out, env := s.env }
    | _ :: _ => none
  | none => none

/-- The headers included by one pass. -/
def headersOf (env : Env) : Option (List Header) :=
  (preprocess env).map Output.headers

/-! ## Sample tables -/

/-- Nothing defined. -/
def envNone : Env := fun _ => none

/-- Table built from a list of definitions, first match first. -/
def envOf (l : List (String × Body)) : Env :=
  fun n => (l.find? (fun p => p.1 == n)).map Prod.snd

/-- Only the platform flag is defined: `SKIA_IMPLEMENTATION`, `SK_VULKAN` and
the override are not. -/
def envAndroidOnly : Env :=
  envOf [(SK_BUILD_FOR_ANDROID, Body.empty)]

/-- Build of a client with the Vulkan backend: `SK_VULKAN` defined,
`SKIA_IMPLEMENTATION` not. -/
def envClient : Env :=
  envOf [(SK_VULKAN, Body.int 1)]

/-- Build of a client with the Vulkan backend on Android. -/
def envClientAndroid : Env :=
  envOf [(SK_VULKAN, Body.int 1), (SK_BUILD_FOR_ANDROID, Body.empty)]

/-- Build of the library itself with the Vulkan backend, not on Android. -/
def envInternal : Env :=
  envOf [(SKIA_IMPLEMENTATION, Body.int 1), (SK_VULKAN, Body.int 1)]

/-- Build of the library itself with the Vulkan backend on Android. -/
def envInternalAndroid : Env :=
  envOf [(SKIA_IMPLEMENTATION, Body.int 1), (SK_VULKAN, Body.int 1),
    (SK_BUILD_FOR_ANDROID, Body.empty)]

/-- A build that defines `SKIA_IMPLEMENTATION` as `2 ^ 64`, a literal whose low
64 bits are all `0`, with the Vulkan backend. -/
def envWide : Env :=
  envOf [(SKIA_IMPLEMENTATION, Body.int 18446744073709551616), (SK_VULKAN, Body.int 1)]

/-- Build of the library itself on Android with the override set. -/
def envInternalAndroidOverride : Env :=
  envOf [(SKIA_IMPLEMENTATION, Body.int 1), (SK_VULKAN, Body.int 1),
    (SK_USE_EXTERNAL_VULKAN_HEADERS, Body.empty), (SK_BUILD_FOR_ANDROID, Body.empty)]

/-! ## The two passes -/

/-- A `#define` leaves the entries of the other names as they were. -/
theorem define_other (env : Env) (n m : String) (b : Body) (h : m ≠ n) :
    define env n b m = env m := by
  simp [define, h]

/-- A `#define` does not change `defined(m)` for another name `m`. -/
theorem isDefined_define_other (env : Env) (n m : String) (b : Body) (h : m ≠ n) :
    isDefined (define env n b) m = isDefined env m := by
  simp [isDefined, define, h]

/-- A `#define` does not change the value of another identifier. -/
theorem identValue_define_other (env : Env) (n m : String) (b : Body) (h : m ≠ n) :
    identValue (define env n b) m = identValue env m := by
  simp [identValue, define, h]

/-- Value of the controlling expression of line 15 in a table where
`SKIA_IMPLEMENTATION` has the value `v`. -/
theorem coreCond_eval (env : Env) (v : Int)
    (hv : identValue env SKIA_IMPLEMENTATION = some v) :
    coreCond.eval env = some
      (if (v ≠ 0 ∨ isDefined env SK_VULKAN = false) ∧
          isDefined env SK_USE_EXTERNAL_VULKAN_HEADERS = false then 1 else 0) := by
  simp only [coreCond, PPExpr.eval, hv]
  cases isDefined env SK_VULKAN <;> cases isDefined env SK_USE_EXTERNAL_VULKAN_HEADERS <;>
    by_cases h0 : v = 0 <;> simp [h0]

/-- Value of the controlling expression of line 25 in a table where
`SKIA_IMPLEMENTATION` has the value `v`. -/
theorem androidCond_eval (env : Env) (v : Int)
    (hv : identValue env SKIA_IMPLEMENTATION = some v) :
    androidCond.eval env = some
      (if (v ≠ 0 ∨ isDefined env SK_VULKAN = false) ∧
          isDefined env SK_USE_EXTERNAL_VULKAN_HEADERS = false then 1 else 0) := by
  simp only [androidCond, PPExpr.eval, hv]
  cases isDefined env SK_VULKAN <;> cases isDefined env SK_USE_EXTERNAL_VULKAN_HEADERS <;>
    by_cases h0 : v = 0 <;> simp [h0]

/-- A pass that starts with the guard not defined and `SKIA_IMPLEMENTATION`
of value `v`: the headers it includes and the table it leaves. -/
theorem preprocess_first_pass (env : Env) (v : Int)
    (hg : env SkiaVulkan_DEFINED = none)
    (hv : identValue env SKIA_IMPLEMENTATION = some v) :
    preprocess env = some
      { headers := skTypes ::
          (if (v ≠ 0 ∨ isDefined env SK_VULKAN = false) ∧
              isDefined env SK_USE_EXTERNAL_VULKAN_HEADERS = false
            then internalCore else externalCore) ::
          (if isDefined env SK_BUILD_FOR_ANDROID = true then
            [if (v ≠ 0 ∨ isDefined env SK_VULKAN = false) ∧
                isDefined env SK_USE_EXTERNAL_VULKAN_HEADERS = false
              then internalAndroid else externalAndroid]
           else []),
        env := define env SkiaVulkan_DEFINED Body.empty } := by
  have hg1 : isDefined env SkiaVulkan_DEFINED = false := by simp [isDefined, hg]
  have e1 : identValue (define env SkiaVulkan_DEFINED Body.empty) SKIA_IMPLEMENTATION = some v := by
    rw [identValue_define_other _ _ _ _ (by decide)]; exact hv
  have e2 : isDefined (define env SkiaVulkan_DEFINED Body.empty) SK_VULKAN = isDefined env SK_VULKAN :=
    isDefined_define_other _ _ _ _ (by decide)
  have e3 : isDefined (define env SkiaVulkan_DEFINED Body.empty) SK_USE_EXTERNAL_VULKAN_HEADERS
      = isDefined env SK_USE_EXTERNAL_VULKAN_HEADERS :=
    isDefined_define_other _ _ _ _ (by decide)
  have e4 : isDefined (define env SkiaVulkan_DEFINED Body.empty) SK_BUILD_FOR_ANDROID
      = isDefined env SK_BUILD_FOR_ANDROID :=
    isDefined_define_other _ _ _ _ (by decide)
  have c1 := coreCond_eval _ v e1
  have c2 := androidCond_eval _ v e1
  rw [e2, e3] at c1 c2
  by_cases hc : (v ≠ 0 ∨ isDefined env SK_VULKAN = false) ∧
      isDefined env SK_USE_EXTERNAL_VULKAN_HEADERS = false
  · rw [if_pos hc] at c1 c2
    cases ha : isDefined env SK_BUILD_FOR_ANDROID <;>
      simp [preprocess, SkiaVulkan_h, run, step, openIf, State.live, hg1, c1, c2, e4, ha, hc]
  · rw [if_neg hc] at c1 c2
    cases ha : isDefined env SK_BUILD_FOR_ANDROID <;>
      simp [preprocess, SkiaVulkan_h, run, step, openIf, State.live, hg1, c1, c2, e4, ha, hc]

/-- A pass that starts with the guard defined includes nothing and leaves the
table as it was; no controlling expression is evaluated. -/
theorem preprocess_guarded (env : Env) (hg : isDefined env SkiaVulkan_DEFINED = true) :
    preprocess env = some { headers := [], env := env } := by
  simp [preprocess, SkiaVulkan_h, run, step, openIf, State.live, hg]

/-- A pass fails in one case only: the guard is not defined, so that line 15
is evaluated, and `SKIA_IMPLEMENTATION` is defined with an empty body. -/
theorem preprocess_eq_none_iff (env : Env) :
    preprocess env = none ↔
      env SkiaVulkan_DEFINED = none ∧ env SKIA_IMPLEMENTATION = some Body.empty := by
  cases hg : env SkiaVulkan_DEFINED with
  | some b =>
    rw [preprocess_guarded env (by simp [isDefined, hg])]
    simp
  | none =>
    cases hs : env SKIA_IMPLEMENTATION with
    | none =>
      rw [preprocess_first_pass env 0 hg (by simp [identValue, hs])]
      simp
    | some b =>
      cases b with
      | int v =>
        rw [preprocess_first_pass env (v % 2 ^ ppBits) hg (by simp [identValue, hs])]
        simp
      | empty =>
        have hg1 : isDefined env SkiaVulkan_DEFINED = false := by simp [isDefined, hg]
        have e1 : identValue (define env SkiaVulkan_DEFINED Body.empty) SKIA_IMPLEMENTATION
            = none := by
          rw [identValue_define_other _ _ _ _ (by decide)]
          simp [identValue, hs]
        have c1 : coreCond.eval (define env SkiaVulkan_DEFINED Body.empty) = none := by
          simp [coreCond, PPExpr.eval, e1]
        simp [preprocess, SkiaVulkan_h, run, step, openIf, State.live, hg1, c1]

/-- Headers of a pass that starts with the guard not defined and
`SKIA_IMPLEMENTATION` of value `v`. -/
theorem headersOf_first_pass (env : Env) (v : Int)
    (hg : env SkiaVulkan_DEFINED = none)
    (hv : identValue env SKIA_IMPLEMENTATION = some v) :
    headersOf env = some
      (skTypes ::
        (if (v ≠ 0 ∨ isDefined env SK_VULKAN = false) ∧
            isDefined env SK_USE_EXTERNAL_VULKAN_HEADERS = false
          then internalCore else externalCore) ::
        (if isDefined env SK_BUILD_FOR_ANDROID = true then
          [if (v ≠ 0 ∨ isDefined env SK_VULKAN = false) ∧
              isDefined env SK_USE_EXTERNAL_VULKAN_HEADERS = false
            then internalAndroid else externalAndroid]
         else [])) := by
  simp [headersOf, preprocess_first_pass env v hg hv]

/-- Headers of a pass that starts with the guard defined. -/
theorem headersOf_guarded (env : Env) (hg : isDefined env SkiaVulkan_DEFINED = true) :
    headersOf env = some [] := by
  simp [headersOf, preprocess_guarded env hg]

/-- The value of an identifier is a 64-bit pattern. -/
theorem identValue_range (env : Env) (n : String) (v : Int)
    (hv : identValue env n = some v) : 0 ≤ v ∧ v < 2 ^ ppBits := by
  unfold identValue at hv
  split at hv
  · cases hv; simp [ppBits]
  · cases hv
    exact ⟨Int.emod_nonneg _ (by simp [ppBits]), Int.emod_lt_of_pos _ (by simp [ppBits])⟩
  · cases hv

/-- A literal in the 64-bit range is read as it is written. -/
theorem identValue_of_small (env : Env) (n : String) (v : Int)
    (h : env n = some (Body.int v)) (h0 : 0 ≤ v) (h1 : v < 2 ^ ppBits) :
    identValue env n = some v := by
  simp [identValue, h, Int.emod_eq_of_lt h0 h1]

/-- `SKIA_IMPLEMENTATION` defined as `2 ^ 64` is read as `0` by lines 15 and
25: with `SK_VULKAN` defined the pass takes the external core header. -/
theorem headersOf_envWide :
    identValue envWide SKIA_IMPLEMENTATION = some 0 ∧
    headersOf envWide = some [skTypes, externalCore] := by
  decide

/-- The five headers named in the file are pairwise different. -/
theorem headers_distinct :
    [skTypes, internalCore, externalCore, internalAndroid, externalAndroid].Nodup := by
  decide

/-! ## Core header selection -/

/-- C1 (as amended): in a first pass with `SK_VULKAN` defined, the core header
included is the bundled one iff `SKIA_IMPLEMENTATION` is true and
`SK_USE_EXTERNAL_VULKAN_HEADERS` is not defined; in the three other
combinations it is the external one.  "True" is `v ≠ 0` for `v` the 64-bit
value that line 15 reads. -/
theorem C1_core_internal_iff_when_vulkan (env : Env) (v : Int)
    (hg : env SkiaVulkan_DEFINED = none)
    (hv : identValue env SKIA_IMPLEMENTATION = some v)
    (hvk : isDefined env SK_VULKAN = true) :
    ∃ hs, headersOf env = some hs ∧
      (internalCore ∈ hs ↔
        (v ≠ 0 ∧ isDefined env SK_USE_EXTERNAL_VULKAN_HEADERS = false)) ∧
      (externalCore ∈ hs ↔
        ¬ (v ≠ 0 ∧ isDefined env SK_USE_EXTERNAL_VULKAN_HEADERS = false)) := by
  refine ⟨_, headersOf_first_pass env v hg hv, ?_, ?_⟩ <;>
    cases hov : isDefined env SK_USE_EXTERNAL_VULKAN_HEADERS <;>
    cases ha : isDefined env SK_BUILD_FOR_ANDROID <;>
    by_cases h0 : v = 0 <;>
    simp [hvk, h0] <;> decide

/-- C1, witness: the library's own build with the Vulkan backend. -/
theorem C1_core_internal_iff_when_vulkan_witness :
    envInternal SkiaVulkan_DEFINED = none ∧
    identValue envInternal SKIA_IMPLEMENTATION = some 1 ∧
    isDefined envInternal SK_VULKAN = true ∧
    ∃ hs, headersOf envInternal = some hs ∧
      (internalCore ∈ hs ↔
        ((1 : Int) ≠ 0 ∧ isDefined envInternal SK_USE_EXTERNAL_VULKAN_HEADERS = false)) ∧
      (externalCore ∈ hs ↔
        ¬ ((1 : Int) ≠ 0 ∧ isDefined envInternal SK_USE_EXTERNAL_VULKAN_HEADERS = false)) :=
  ⟨by decide, by decide, by decide,
    C1_core_internal_iff_when_vulkan envInternal 1 (by decide) (by decide) (by decide)⟩

/-- C1, counterexample to the two-flag rule: with nothing defined,
`SKIA_IMPLEMENTATION` is false and the override is not set, and the pass
includes the bundled core header, not the external one. -/
theorem C1_two_flag_rule_counterexample :
    envNone SkiaVulkan_DEFINED = none ∧
    identValue envNone SKIA_IMPLEMENTATION = some 0 ∧
    isDefined envNone SK_USE_EXTERNAL_VULKAN_HEADERS = false ∧
    headersOf envNone = some [skTypes, internalCore] ∧
    ¬ (internalCore ∈ [skTypes, internalCore] ↔
        ((0 : Int) ≠ 0 ∧ isDefined envNone SK_USE_EXTERNAL_VULKAN_HEADERS = false)) := by
  decide

/-- C2: a first pass in which `SKIA_IMPLEMENTATION` has a value includes
exactly one of the two core headers, once: never both, never neither. -/
theorem C2_exactly_one_core_header (env : Env) (v : Int)
    (hg : env SkiaVulkan_DEFINED = none)
    (hv : identValue env SKIA_IMPLEMENTATION = some v) :
    ∃ hs, headersOf env = some hs ∧
      hs.count internalCore + hs.count externalCore = 1 ∧
      ((internalCore ∈ hs ∧ externalCore ∉ hs) ∨ (internalCore ∉ hs ∧ externalCore ∈ hs)) := by
  refine ⟨_, headersOf_first_pass env v hg hv, ?_, ?_⟩ <;>
    cases hvk : isDefined env SK_VULKAN <;>
    cases hov : isDefined env SK_USE_EXTERNAL_VULKAN_HEADERS <;>
    cases ha : isDefined env SK_BUILD_FOR_ANDROID <;>
    by_cases h0 : v = 0 <;>
    simp [h0] <;> decide

/-- C2, witness: a client build with the Vulkan backend on Android. -/
theorem C2_exactly_one_core_header_witness :
    envClientAndroid SkiaVulkan_DEFINED = none ∧
    identValue envClientAndroid SKIA_IMPLEMENTATION = some 0 ∧
    ∃ hs, headersOf envClientAndroid = some hs ∧
      hs.count internalCore + hs.count externalCore = 1 ∧
      ((internalCore ∈ hs ∧ externalCore ∉ hs) ∨ (internalCore ∉ hs ∧ externalCore ∈ hs)) :=
  ⟨by decide, by decide, C2_exactly_one_core_header envClientAndroid 0 (by decide) (by decide)⟩

/-! ## Android extension header -/

/-- C3: in a first pass with `SK_BUILD_FOR_ANDROID` defined, the Android
extension header comes from the tree of the core header: bundled with
bundled, external with external, never one of each. -/
theorem C3_android_matches_core (env : Env) (v : Int)
    (hg : env SkiaVulkan_DEFINED = none)
    (hv : identValue env SKIA_IMPLEMENTATION = some v)
    (ha : isDefined env SK_BUILD_FOR_ANDROID = true) :
    ∃ hs, headersOf env = some hs ∧
      (internalAndroid ∈ hs ↔ internalCore ∈ hs) ∧
      (externalAndroid ∈ hs ↔ externalCore ∈ hs) ∧
      ¬ (internalCore ∈ hs ∧ externalAndroid ∈ hs) ∧
      ¬ (externalCore ∈ hs ∧ internalAndroid ∈ hs) := by
  refine ⟨_, headersOf_first_pass env v hg hv, ?_, ?_, ?_, ?_⟩ <;>
    cases hvk : isDefined env SK_VULKAN <;>
    cases hov : isDefined env SK_USE_EXTERNAL_VULKAN_HEADERS <;>
    by_cases h0 : v = 0 <;>
    simp [ha, h0] <;> decide

/-- C3, witness: the library's own build on Android. -/
theorem C3_android_matches_core_witness :
    envInternalAndroid SkiaVulkan_DEFINED = none ∧
    identValue envInternalAndroid SKIA_IMPLEMENTATION = some 1 ∧
    isDefined envInternalAndroid SK_BUILD_FOR_ANDROID = true ∧
    ∃ hs, headersOf envInternalAndroid = some hs ∧
      (internalAndroid ∈ hs ↔ internalCore ∈ hs) ∧
      (externalAndroid ∈ hs ↔ externalCore ∈ hs) ∧
      ¬ (internalCore ∈ hs ∧ externalAndroid ∈ hs) ∧
      ¬ (externalCore ∈ hs ∧ internalAndroid ∈ hs) :=
  ⟨by decide, by decide, by decide,
    C3_android_matches_core envInternalAndroid 1 (by decide) (by decide) (by decide)⟩

/-- C4: a first pass includes neither Android extension header when
`SK_BUILD_FOR_ANDROID` is not defined, whatever the other flags are, and
exactly one of the two, once, when it is defined. -/
theorem C4_android_header_only_on_android (env : Env) (v : Int)
    (hg : env SkiaVulkan_DEFINED = none)
    (hv : identValue env SKIA_IMPLEMENTATION = some v) :
    ∃ hs, headersOf env = some hs ∧
      (isDefined env SK_BUILD_FOR_ANDROID = false →
        internalAndroid ∉ hs ∧ externalAndroid ∉ hs) ∧
      (isDefined env SK_BUILD_FOR_ANDROID = true →
        hs.count internalAndroid + hs.count externalAndroid = 1) := by
  refine ⟨_, headersOf_first_pass env v hg hv, ?_, ?_⟩ <;>
    cases hvk : isDefined env SK_VULKAN <;>
    cases hov : isDefined env SK_USE_EXTERNAL_VULKAN_HEADERS <;>
    cases ha : isDefined env SK_BUILD_FOR_ANDROID <;>
    by_cases h0 : v = 0 <;>
    simp [h0] <;> decide

/-- C4, witness: a client build with the Vulkan backend, not on Android. -/
theorem C4_android_header_only_on_android_witness :
    envClient SkiaVulkan_DEFINED = none ∧
    identValue envClient SKIA_IMPLEMENTATION = some 0 ∧
    ∃ hs, headersOf envClient = some hs ∧
      (isDefined envClient SK_BUILD_FOR_ANDROID = false →
        internalAndroid ∉ hs ∧ externalAndroid ∉ hs) ∧
      (isDefined envClient SK_BUILD_FOR_ANDROID = true →
        hs.count internalAndroid + hs.count externalAndroid = 1) :=
  ⟨by decide, by decide,
    C4_android_header_only_on_android envClient 0 (by decide) (by decide)⟩

/-! ## Override and scenarios -/

/-- C5: in a first pass with `SK_USE_EXTERNAL_VULKAN_HEADERS` defined, whatever
its body and whatever the value of `SKIA_IMPLEMENTATION` and the definedness of
`SK_VULKAN`, the headers included are `SkTypes.h`, the external core header
and, when `SK_BUILD_FOR_ANDROID` is defined, the external Android header; no
bundled Vulkan header is included. -/
theorem C5_override_forces_external (env : Env) (v : Int)
    (hg : env SkiaVulkan_DEFINED = none)
    (hv : identValue env SKIA_IMPLEMENTATION = some v)
    (hov : isDefined env SK_USE_EXTERNAL_VULKAN_HEADERS = true) :
    ∃ hs, headersOf env = some hs ∧
      hs = skTypes :: externalCore ::
        (if isDefined env SK_BUILD_FOR_ANDROID = true then [externalAndroid] else []) ∧
      externalCore ∈ hs ∧ internalCore ∉ hs ∧ internalAndroid ∉ hs ∧
      (isDefined env SK_BUILD_FOR_ANDROID = true → externalAndroid ∈ hs) := by
  refine ⟨_, headersOf_first_pass env v hg hv, ?_, ?_, ?_, ?_, ?_⟩ <;>
    cases ha : isDefined env SK_BUILD_FOR_ANDROID <;>
    simp [hov] <;> decide

/-- C5, witness: the scenario BuildContext = Internal, override set, Android. -/
theorem C5_override_forces_external_witness :
    envInternalAndroidOverride SkiaVulkan_DEFINED = none ∧
    identValue envInternalAndroidOverride SKIA_IMPLEMENTATION = some 1 ∧
    isDefined envInternalAndroidOverride SK_USE_EXTERNAL_VULKAN_HEADERS = true ∧
    isDefined envInternalAndroidOverride SK_BUILD_FOR_ANDROID = true ∧
    ∃ hs, headersOf envInternalAndroidOverride = some hs ∧
      hs = skTypes :: externalCore ::
        (if isDefined envInternalAndroidOverride SK_BUILD_FOR_ANDROID = true
          then [externalAndroid] else []) ∧
      externalCore ∈ hs ∧ internalCore ∉ hs ∧ internalAndroid ∉ hs ∧
      (isDefined envInternalAndroidOverride SK_BUILD_FOR_ANDROID = true →
        externalAndroid ∈ hs) :=
  ⟨by decide, by decide, by decide, by decide,
    C5_override_forces_external envInternalAndroidOverride 1 (by decide) (by decide) (by decide)⟩

/-- C6 (as amended): in a first pass with `SKIA_IMPLEMENTATION` false, the
override not defined, `SK_BUILD_FOR_ANDROID` defined and `SK_VULKAN` defined,
the headers included are `SkTypes.h`, the external core header and the
external Android header. -/
theorem C6_external_android_when_vulkan (env : Env)
    (hg : env SkiaVulkan_DEFINED = none)
    (hv : identValue env SKIA_IMPLEMENTATION = some 0)
    (hov : isDefined env SK_USE_EXTERNAL_VULKAN_HEADERS = false)
    (ha : isDefined env SK_BUILD_FOR_ANDROID = true)
    (hvk : isDefined env SK_VULKAN = true) :
    headersOf env = some [skTypes, externalCore, externalAndroid] := by
  rw [headersOf_first_pass env 0 hg hv]
  simp [hov, ha, hvk]

/-- C6, witness: a client build with the Vulkan backend on Android. -/
theorem C6_external_android_when_vulkan_witness :
    envClientAndroid SkiaVulkan_DEFINED = none ∧
    identValue envClientAndroid SKIA_IMPLEMENTATION = some 0 ∧
    isDefined envClientAndroid SK_USE_EXTERNAL_VULKAN_HEADERS = false ∧
    isDefined envClientAndroid SK_BUILD_FOR_ANDROID = true ∧
    isDefined envClientAndroid SK_VULKAN = true ∧
    headersOf envClientAndroid = some [skTypes, externalCore, externalAndroid] :=
  ⟨by decide, by decide, by decide, by decide, by decide,
    C6_external_android_when_vulkan envClientAndroid
      (by decide) (by decide) (by decide) (by decide) (by decide)⟩

/-- C6, counterexample: with only `SK_BUILD_FOR_ANDROID` defined,
`SKIA_IMPLEMENTATION` is false, the override is not set and the platform is
Android, and the pass includes the two bundled headers and no external one. -/
theorem C6_external_android_counterexample :
    envAndroidOnly SkiaVulkan_DEFINED = none ∧
    identValue envAndroidOnly SKIA_IMPLEMENTATION = some 0 ∧
    isDefined envAndroidOnly SK_USE_EXTERNAL_VULKAN_HEADERS = false ∧
    isDefined envAndroidOnly SK_BUILD_FOR_ANDROID = true ∧
    headersOf envAndroidOnly = some [skTypes, internalCore, internalAndroid] ∧
    externalCore ∉ [skTypes, internalCore, internalAndroid] ∧
    externalAndroid ∉ [skTypes, internalCore, internalAndroid] := by
  decide

/-- C7: in a first pass with `SKIA_IMPLEMENTATION` true (the 64-bit value `v`
that line 15 reads is not `0`), the override not defined and
`SK_BUILD_FOR_ANDROID` not defined, the headers included are `SkTypes.h` and
the bundled core header, nothing else. -/
theorem C7_internal_core_only (env : Env) (v : Int)
    (hg : env SkiaVulkan_DEFINED = none)
    (hv : identValue env SKIA_IMPLEMENTATION = some v)
    (hint : v ≠ 0)
    (hov : isDefined env SK_USE_EXTERNAL_VULKAN_HEADERS = false)
    (ha : isDefined env SK_BUILD_FOR_ANDROID = false) :
    headersOf env = some [skTypes, internalCore] := by
  rw [headersOf_first_pass env v hg hv]
  simp [hint, hov, ha]

/-- C7, witness: the library's own build, not on Android. -/
theorem C7_internal_core_only_witness :
    envInternal SkiaVulkan_DEFINED = none ∧
    identValue envInternal SKIA_IMPLEMENTATION = some 1 ∧
    (1 : Int) ≠ 0 ∧
    isDefined envInternal SK_USE_EXTERNAL_VULKAN_HEADERS = false ∧
    isDefined envInternal SK_BUILD_FOR_ANDROID = false ∧
    headersOf envInternal = some [skTypes, internalCore] :=
  ⟨by decide, by decide, by decide, by decide, by decide,
    C7_internal_core_only envInternal 1
      (by decide) (by decide) (by decide) (by decide) (by decide)⟩

/-- C8: the selection has three inputs.  In a first pass the bundled core
header is included iff (`SKIA_IMPLEMENTATION` is true, that is the 64-bit value
`v` read by lines 15 and 25 is not `0`, or `SK_VULKAN` is not
defined) and the override is not defined, the external one otherwise, and on
Android the extension header follows the same rule.  So with `SK_VULKAN` and
the override both not defined the bundled headers are included whatever the
value of `SKIA_IMPLEMENTATION`, and the external core header without the
override needs `SKIA_IMPLEMENTATION` false and `SK_VULKAN` defined. -/
theorem C8_three_input_rule (env : Env) (v : Int)
    (hg : env SkiaVulkan_DEFINED = none)
    (hv : identValue env SKIA_IMPLEMENTATION = some v) :
    ∃ hs, headersOf env = some hs ∧
      (internalCore ∈ hs ↔
        ((v ≠ 0 ∨ isDefined env SK_VULKAN = false) ∧
          isDefined env SK_USE_EXTERNAL_VULKAN_HEADERS = false)) ∧
      (externalCore ∈ hs ↔
        ¬ ((v ≠ 0 ∨ isDefined env SK_VULKAN = false) ∧
          isDefined env SK_USE_EXTERNAL_VULKAN_HEADERS = false)) ∧
      (isDefined env SK_BUILD_FOR_ANDROID = true →
        (internalAndroid ∈ hs ↔
          ((v ≠ 0 ∨ isDefined env SK_VULKAN = false) ∧
            isDefined env SK_USE_EXTERNAL_VULKAN_HEADERS = false)) ∧
        (externalAndroid ∈ hs ↔
          ¬ ((v ≠ 0 ∨ isDefined env SK_VULKAN = false) ∧
            isDefined env SK_USE_EXTERNAL_VULKAN_HEADERS = false))) ∧
      (isDefined env SK_VULKAN = false →
        isDefined env SK_USE_EXTERNAL_VULKAN_HEADERS = false →
        hs = skTypes :: internalCore ::
          (if isDefined env SK_BUILD_FOR_ANDROID = true then [internalAndroid] else [])) ∧
      (isDefined env SK_USE_EXTERNAL_VULKAN_HEADERS = false → externalCore ∈ hs →
        v = 0 ∧ isDefined env SK_VULKAN = true) := by
  refine ⟨_, headersOf_first_pass env v hg hv, ?_, ?_, ?_, ?_, ?_⟩ <;>
    cases hvk : isDefined env SK_VULKAN <;>
    cases hov : isDefined env SK_USE_EXTERNAL_VULKAN_HEADERS <;>
    cases ha : isDefined env SK_BUILD_FOR_ANDROID <;>
    by_cases h0 : v = 0 <;>
    simp [h0] <;> decide

/-- C8, witness: only the platform flag defined, so `SKIA_IMPLEMENTATION` is
false and `SK_VULKAN` is not defined. -/
theorem C8_three_input_rule_witness :
    envAndroidOnly SkiaVulkan_DEFINED = none ∧
    identValue envAndroidOnly SKIA_IMPLEMENTATION = some 0 ∧
    ∃ hs, headersOf envAndroidOnly = some hs ∧
      (internalCore ∈ hs ↔
        (((0 : Int) ≠ 0 ∨ isDefined envAndroidOnly SK_VULKAN = false) ∧
          isDefined envAndroidOnly SK_USE_EXTERNAL_VULKAN_HEADERS = false)) ∧
      (externalCore ∈ hs ↔
        ¬ (((0 : Int) ≠ 0 ∨ isDefined envAndroidOnly SK_VULKAN = false) ∧
          isDefined envAndroidOnly SK_USE_EXTERNAL_VULKAN_HEADERS = false)) ∧
      (isDefined envAndroidOnly SK_BUILD_FOR_ANDROID = true →
        (internalAndroid ∈ hs ↔
          (((0 : Int) ≠ 0 ∨ isDefined envAndroidOnly SK_VULKAN = false) ∧
            isDefined envAndroidOnly SK_USE_EXTERNAL_VULKAN_HEADERS = false)) ∧
        (externalAndroid ∈ hs ↔
          ¬ (((0 : Int) ≠ 0 ∨ isDefined envAndroidOnly SK_VULKAN = false) ∧
            isDefined envAndroidOnly SK_USE_EXTERNAL_VULKAN_HEADERS = false))) ∧
      (isDefined envAndroidOnly SK_VULKAN = false →
        isDefined envAndroidOnly SK_USE_EXTERNAL_VULKAN_HEADERS = false →
        hs = skTypes :: internalCore ::
          (if isDefined envAndroidOnly SK_BUILD_FOR_ANDROID = true
            then [internalAndroid] else [])) ∧
      (isDefined envAndroidOnly SK_USE_EXTERNAL_VULKAN_HEADERS = false → externalCore ∈ hs →
        (0 : Int) = 0 ∧ isDefined envAndroidOnly SK_VULKAN = true) :=
  ⟨by decide, by decide, C8_three_input_rule envAndroidOnly 0 (by decide) (by decide)⟩

/-! ## Include guard -/

/-- C9: a pass that starts with `SkiaVulkan_DEFINED` not defined (and
`SKIA_IMPLEMENTATION` with a value) succeeds, defines `SkiaVulkan_DEFINED` and
leaves every other name of the table as it was; a pass over the table it
leaves, and over any table in which `SkiaVulkan_DEFINED` is defined, includes
no header and returns the table unchanged. -/
theorem C9_include_guard (env : Env) (v : Int)
    (hg : env SkiaVulkan_DEFINED = none)
    (hv : identValue env SKIA_IMPLEMENTATION = some v) :
    ∃ out, preprocess env = some out ∧
      out.env SkiaVulkan_DEFINED = some Body.empty ∧
      (∀ n, n ≠ SkiaVulkan_DEFINED → out.env n = env n) ∧
      preprocess out.env = some { headers := [], env := out.env } ∧
      (∀ later : Env, isDefined later SkiaVulkan_DEFINED = true →
        preprocess later = some { headers := [], env := later }) := by
  refine ⟨_, preprocess_first_pass env v hg hv, ?_, ?_, ?_, ?_⟩
  · simp [define]
  · intro n hn
    exact define_other env _ n _ hn
  · exact preprocess_guarded _ (by simp [isDefined, define])
  · intro later hl
    exact preprocess_guarded later hl

/-- C9, witness: the library's own build on Android. -/
theorem C9_include_guard_witness :
    envInternalAndroid SkiaVulkan_DEFINED = none ∧
    identValue envInternalAndroid SKIA_IMPLEMENTATION = some 1 ∧
    ∃ out, preprocess envInternalAndroid = some out ∧
      out.env SkiaVulkan_DEFINED = some Body.empty ∧
      (∀ n, n ≠ SkiaVulkan_DEFINED → out.env n = envInternalAndroid n) ∧
      preprocess out.env = some { headers := [], env := out.env } ∧
      (∀ later : Env, isDefined later SkiaVulkan_DEFINED = true →
        preprocess later = some { headers := [], env := later }) :=
  ⟨by decide, by decide, C9_include_guard envInternalAndroid 1 (by decide) (by decide)⟩

/-! ## Definedness against value -/

/-- C10: the override is tested by definedness, the build-context flag by
value.  Defining `SK_USE_EXTERNAL_VULKAN_HEADERS` as `0` in a first-pass table
gives the external core header and, on Android, the external Android header.
Defining `SKIA_IMPLEMENTATION` as `0` in a table where it is not defined does
not change the headers a pass includes, whatever else the table holds. -/
theorem C10_defined_versus_value (env env0 : Env) (v : Int)
    (hg : env SkiaVulkan_DEFINED = none)
    (hv : identValue env SKIA_IMPLEMENTATION = some v)
    (h0 : env0 SKIA_IMPLEMENTATION = none) :
    headersOf (define env SK_USE_EXTERNAL_VULKAN_HEADERS (Body.int 0)) =
      some (skTypes :: externalCore ::
        (if isDefined env SK_BUILD_FOR_ANDROID = true then [externalAndroid] else [])) ∧
    headersOf (define env0 SKIA_IMPLEMENTATION (Body.int 0)) = headersOf env0 := by
  constructor
  · have hg1 : define env SK_USE_EXTERNAL_VULKAN_HEADERS (Body.int 0) SkiaVulkan_DEFINED = none := by
      rw [define_other _ _ _ _ (by decide)]; exact hg
    have hv1 : identValue (define env SK_USE_EXTERNAL_VULKAN_HEADERS (Body.int 0))
        SKIA_IMPLEMENTATION = some v := by
      rw [identValue_define_other _ _ _ _ (by decide)]; exact hv
    have ha1 : isDefined (define env SK_USE_EXTERNAL_VULKAN_HEADERS (Body.int 0))
        SK_BUILD_FOR_ANDROID = isDefined env SK_BUILD_FOR_ANDROID :=
      isDefined_define_other _ _ _ _ (by decide)
    have ho1 : isDefined (define env SK_USE_EXTERNAL_VULKAN_HEADERS (Body.int 0))
        SK_USE_EXTERNAL_VULKAN_HEADERS = true := by
      simp [isDefined, define]
    rw [headersOf_first_pass _ v hg1 hv1]
    simp [ha1, ho1]
  · have hz0 : identValue env0 SKIA_IMPLEMENTATION = some 0 := by
      simp [identValue, h0]
    have hz1 : identValue (define env0 SKIA_IMPLEMENTATION (Body.int 0))
        SKIA_IMPLEMENTATION = some 0 := by
      simp [identValue, define]
    have hk : isDefined (define env0 SKIA_IMPLEMENTATION (Body.int 0)) SK_VULKAN
        = isDefined env0 SK_VULKAN :=
      isDefined_define_other _ _ _ _ (by decide)
    have ho : isDefined (define env0 SKIA_IMPLEMENTATION (Body.int 0))
        SK_USE_EXTERNAL_VULKAN_HEADERS = isDefined env0 SK_USE_EXTERNAL_VULKAN_HEADERS :=
      isDefined_define_other _ _ _ _ (by decide)
    have ha : isDefined (define env0 SKIA_IMPLEMENTATION (Body.int 0)) SK_BUILD_FOR_ANDROID
        = isDefined env0 SK_BUILD_FOR_ANDROID :=
      isDefined_define_other _ _ _ _ (by decide)
    have hgd : define env0 SKIA_IMPLEMENTATION (Body.int 0) SkiaVulkan_DEFINED
        = env0 SkiaVulkan_DEFINED :=
      define_other _ _ _ _ (by decide)
    cases hgc : env0 SkiaVulkan_DEFINED with
    | none =>
      rw [headersOf_first_pass _ 0 (hgd.trans hgc) hz1, headersOf_first_pass _ 0 hgc hz0,
        hk, ho, ha]
    | some b =>
      rw [headersOf_guarded _ (by simp [isDefined, hgd, hgc]),
        headersOf_guarded _ (by simp [isDefined, hgc])]

/-- C10, witness: the override defined as `0` in the library's own Android
build, and `SKIA_IMPLEMENTATION` defined as `0` in a client Android build. -/
theorem C10_defined_versus_value_witness :
    envInternalAndroid SkiaVulkan_DEFINED = none ∧
    identValue envInternalAndroid SKIA_IMPLEMENTATION = some 1 ∧
    envClientAndroid SKIA_IMPLEMENTATION = none ∧
    headersOf (define envInternalAndroid SK_USE_EXTERNAL_VULKAN_HEADERS (Body.int 0)) =
      some (skTypes :: externalCore ::
        (if isDefined envInternalAndroid SK_BUILD_FOR_ANDROID = true
          then [externalAndroid] else [])) ∧
    headersOf (define envClientAndroid SKIA_IMPLEMENTATION (Body.int 0)) =
      headersOf envClientAndroid :=
  ⟨by decide, by decide, by decide,
    C10_defined_versus_value envInternalAndroid envClientAndroid 1
      (by decide) (by decide) (by decide)⟩

end SkiaVulkan
